import Mathlib

/-!
Shallow embedding of the banking-transaction synthesis engine
(`TransactionDataGenerator` in `generate_banking_csv.py`, duplicated in
`api.py`) together with the `/transactions/{count}` batch endpoint.

Randomness and wall-clock time are modelled by an explicit `Draws` record:
each field corresponds to one random draw (or clock read) the Python code
performs during a single `generate_transaction` call.  Weighted choices
(`random.choices`) are modelled the way CPython implements them: a uniform
selector `v` in `[0,1)` is scaled by the total weight and compared against
the cumulative weights.  `random.uniform(a, b)` is modelled as
`a + (b - a) * v` with `v` in `[0,1)`, and `random.randint` / lognormal
draws are oracle-provided numbers whose documented ranges appear as
hypotheses of the theorems.  Machine floats are modelled by `ℚ`.
-/

namespace Banking

/-- The four fraud archetypes dispatched by `generate_transaction`. -/
inductive FraudType where
  | money_laundering
  | account_takeover
  | loan_fraud
  | fee_manipulation
deriving DecidableEq

/-- Little-endian decimal digits of `n` rendered as characters, most
significant first: the character list of Python's `str(n)` (empty for 0,
matching `Nat.digits`). -/
def natChars (n : ℕ) : List Char :=
  ((Nat.digits 10 n).reverse).map Nat.digitChar

/-- Zero-padding to width `w`: the character list of Python's
`f"{n:0wd}"` format. -/
def padNum (w : ℕ) (n : ℕ) : List Char :=
  List.replicate (w - (natChars n).length) '0' ++ natChars n

/-- Python `f"TXN_{c:08d}"`. -/
def txnId (c : ℕ) : String :=
  ⟨'T' :: 'X' :: 'N' :: '_' :: padNum 8 c⟩

/-- Element `k` of `account_pool = [f"ACC_{i:06d}" for i in range(1000, 5000)]`,
i.e. the result of `random.choice(self.account_pool)` when the drawn index
is `k`. -/
def acctAt (k : Fin 4000) : String :=
  ⟨'A' :: 'C' :: 'C' :: '_' :: padNum 6 (1000 + k.val)⟩

/-- `device_pool = [f"DEV_{i:05d}" for i in range(10000, 50000)]`. -/
def devicePool : List String :=
  (List.range' 10000 40000).map (fun i => ⟨'D' :: 'E' :: 'V' :: '_' :: padNum 5 i⟩)

/-- Element `k` of the device pool. -/
def deviceAt (k : Fin 40000) : String :=
  ⟨'D' :: 'E' :: 'V' :: '_' :: padNum 5 (10000 + k.val)⟩

/-- Python `f"DEV_NEW_{j}"` (no padding in the source format string beyond
the digits of `j`). -/
def devNewStr (j : ℕ) : String :=
  ⟨'D' :: 'E' :: 'V' :: '_' :: 'N' :: 'E' :: 'W' :: '_' :: natChars j⟩

/-- The fixed 8-city list `self.cities`. -/
def cities : List String :=
  ["Ho Chi Minh City", "Hanoi", "Da Nang", "Can Tho", "Hai Phong",
   "Bien Hoa", "Hue", "Nha Trang"]

/-- `random.choices([x, y], weights=[wx, wy])[0]` with selector `v` in
`[0,1)`: CPython scales `v` by the cumulative total and bisects. -/
def choices2 (x y : ℕ) (wx wy : ℕ) (v : ℚ) : ℕ :=
  if v * (wx + wy : ℕ) < (wx : ℚ) then x else y

/-- `random.choices([x, y, z], weights=[wx, wy, wz])[0]` with selector `v`. -/
def choices3 (x y z : ℕ) (wx wy wz : ℕ) (v : ℚ) : ℕ :=
  if v * (wx + wy + wz : ℕ) < (wx : ℚ) then x
  else if v * (wx + wy + wz : ℕ) < (wx + wy : ℚ) then y
  else z

/-- `random.uniform(a, b) = a + (b - a) * random()` with `random()` value
`v` in `[0,1)`. -/
def uniformR (a b v : ℚ) : ℚ := a + (b - a) * v

/-- The weighted archetype choice
`random.choices(['money_laundering', 'account_takeover', 'loan_fraud',
'fee_manipulation'], weights=[30, 25, 25, 20])[0]` with selector `v` in
`[0,1)`; cumulative weights are 30, 55, 80, 100. -/
def chooseFraudType (v : ℚ) : FraudType :=
  if v * 100 < 30 then FraudType.money_laundering
  else if v * 100 < 55 then FraudType.account_takeover
  else if v * 100 < 80 then FraudType.loan_fraud
  else FraudType.fee_manipulation

/-- `self.recent_activity`: Python dict from account id to list of
`time.time()` instants; an absent key behaves like the empty list for
every operation the generator performs. -/
def ActivityMap : Type := String → List ℚ

/-- One generated record (the `Transaction` class of
`generate_banking_csv.py`; the `api.py` pydantic model has the same fields
minus the two ground-truth label fields). -/
structure Transaction where
  transaction_id : String
  account_id : String
  branch_id : ℕ
  transaction_amount_vnd : ℚ
  transaction_hour : ℕ
  transaction_timestamp : ℚ
  location_city : String
  device_id : String
  biometric_failure_count : ℕ
  transaction_frequency_5min : ℕ
  total_loans_vnd : ℚ
  num_transactions : ℕ
  npl_flag : Bool
  total_deposits_vnd : ℚ
  transaction_fees_vnd : ℚ
  is_fraud : Bool
  fraud_type : Option FraudType
deriving DecidableEq

/-- Mutable generator state: `self.transaction_counter`,
`self.recent_activity` and the fraud injection rate
(`self.fraud_injection_rate` in the CSV generator,
`current_config.fraud_injection_rate` in `api.py`). -/
structure GenState where
  transaction_counter : ℕ
  recent_activity : ActivityMap
  fraud_injection_rate : ℚ

/-- All random draws and clock reads one `generate_transaction` call may
consume.  Each archetype sampler reads the fields corresponding to the
draws the Python function performs. -/
structure Draws where
  /-- `random.random()` gating fraud injection. -/
  u : ℚ
  /-- selector in `[0,1)` for the weighted archetype choice. -/
  fraudSel : ℚ
  /-- the wall-clock instant of this call (`time.time()` /
  `datetime.now()` inside the sampler). -/
  now : ℚ
  /-- `datetime.now().hour`. -/
  currentHour : ℕ
  /-- index drawn by `random.choice(self.account_pool)`. -/
  acctIdx : Fin 4000
  /-- `random.randint(1, 10)`. -/
  branch : ℕ
  /-- selector in `[0,1)` for `random.uniform` amount draws. -/
  amountSel : ℚ
  /-- `np.random.lognormal(mean=13.8, sigma=1.2)` (normal amounts). -/
  lnAmount : ℚ
  /-- index for `random.choice` over a 5-element hour list. -/
  hourIdx : Fin 5
  /-- index drawn by `random.choice(self.cities)`. -/
  cityIdx : Fin 8
  /-- index for `random.choice(["Unknown", "Foreign_Location"] + self.cities)`. -/
  cityIdx10 : Fin 10
  /-- index drawn by `random.choice(self.device_pool)`. -/
  deviceIdx : Fin 40000
  /-- `random.randint` suffix for the `DEV_NEW_` device string. -/
  devNewNum : ℕ
  /-- selector in `[0,1)` for the weighted biometric-failure choices. -/
  bioSel : ℚ
  /-- `random.randint(3, 5)` (account takeover biometric failures). -/
  bioRand : ℕ
  /-- `np.random.lognormal` loans draw. -/
  lnLoans : ℚ
  /-- selector in `[0,1)` for `random.uniform(500_000_000, 2_000_000_000)`. -/
  loansSel : ℚ
  /-- `random.randint` draw for `num_transactions`. -/
  numTx : ℕ
  /-- `random.random()` compared against the NPL probability. -/
  nplU : ℚ
  /-- `np.random.lognormal` deposits draw. -/
  lnDeposits : ℚ
  /-- the burst loop `for _ in range(random.randint(...))`: one pair per
  iteration, `(time.time() instant, random.randint(1, 300) offset)`. -/
  burst : List (ℚ × ℕ)

/-- `_update_account_activity`: prune instants at or before
`now - 300`, append `now`, return the resulting count and map. -/
def updateAccountActivity (m : ActivityMap) (a : String) (now : ℚ) :
    ℕ × ActivityMap :=
  let pruned := (m a).filter (fun t => now - 300 < t)
  let updated := pruned ++ [now]
  (updated.length, Function.update m a updated)

/-- `_generate_normal_transaction`. -/
def generateNormalTransaction (g : GenState) (d : Draws) :
    Transaction × GenState :=
  let account_id := acctAt d.acctIdx
  let fr := updateAccountActivity g.recent_activity account_id d.now
  ({ transaction_id := txnId g.transaction_counter
     account_id := account_id
     branch_id := d.branch
     transaction_amount_vnd := max 10000 d.lnAmount
     transaction_hour := d.currentHour
     transaction_timestamp := d.now
     location_city := cities.get d.cityIdx
     device_id := deviceAt d.deviceIdx
     biometric_failure_count := choices3 0 1 2 85 12 3 d.bioSel
     transaction_frequency_5min := fr.1
     total_loans_vnd := max 0 d.lnLoans
     num_transactions := d.numTx
     npl_flag := decide (d.nplU < 0.0198)
     total_deposits_vnd := max 0 d.lnDeposits
     transaction_fees_vnd := 0
     is_fraud := false
     fraud_type := none },
   { g with recent_activity := fr.2 })

/-- `_generate_money_laundering_transaction`: first the burst loop
appends `time.time() - random.randint(1, 300)` instants via `setdefault`,
then the real tracker call counts them plus the triggering transaction. -/
def generateMoneyLaunderingTransaction (g : GenState) (d : Draws) :
    Transaction × GenState :=
  let account_id := acctAt d.acctIdx
  let burstInstants := d.burst.map (fun p => p.1 - (p.2 : ℚ))
  let act1 := Function.update g.recent_activity account_id
    (g.recent_activity account_id ++ burstInstants)
  let fr := updateAccountActivity act1 account_id d.now
  ({ transaction_id := txnId g.transaction_counter
     account_id := account_id
     branch_id := d.branch
     transaction_amount_vnd := uniformR 300000000 1000000000 d.amountSel
     transaction_hour := ([1, 2, 3, 23, 24] : List ℕ).get d.hourIdx
     transaction_timestamp := d.now
     location_city := cities.get d.cityIdx
     device_id := deviceAt d.deviceIdx
     biometric_failure_count := choices2 0 1 70 30 d.bioSel
     transaction_frequency_5min := fr.1
     total_loans_vnd := max 0 d.lnLoans
     num_transactions := d.numTx
     npl_flag := decide (d.nplU < 0.05)
     total_deposits_vnd := max 0 d.lnDeposits
     transaction_fees_vnd := 0
     is_fraud := true
     fraud_type := some FraudType.money_laundering },
   { g with recent_activity := fr.2 })

/-- `_generate_account_takeover_transaction`. -/
def generateAccountTakeoverTransaction (g : GenState) (d : Draws) :
    Transaction × GenState :=
  let account_id := acctAt d.acctIdx
  let fr := updateAccountActivity g.recent_activity account_id d.now
  ({ transaction_id := txnId g.transaction_counter
     account_id := account_id
     branch_id := d.branch
     transaction_amount_vnd := uniformR 50000000 500000000 d.amountSel
     transaction_hour := ([2, 3, 4, 22, 23] : List ℕ).get d.hourIdx
     transaction_timestamp := d.now
     location_city := (["Unknown", "Foreign_Location"] ++ cities).get d.cityIdx10
     device_id := devNewStr d.devNewNum
     biometric_failure_count := d.bioRand
     transaction_frequency_5min := fr.1
     total_loans_vnd := max 0 d.lnLoans
     num_transactions := d.numTx
     npl_flag := decide (d.nplU < 0.0198)
     total_deposits_vnd := max 0 d.lnDeposits
     transaction_fees_vnd := 0
     is_fraud := true
     fraud_type := some FraudType.account_takeover },
   { g with recent_activity := fr.2 })

/-- `_generate_loan_fraud_transaction`. -/
def generateLoanFraudTransaction (g : GenState) (d : Draws) :
    Transaction × GenState :=
  let account_id := acctAt d.acctIdx
  let fr := updateAccountActivity g.recent_activity account_id d.now
  ({ transaction_id := txnId g.transaction_counter
     account_id := account_id
     branch_id := d.branch
     transaction_amount_vnd := uniformR 100000000 800000000 d.amountSel
     transaction_hour := d.currentHour
     transaction_timestamp := d.now
     location_city := cities.get d.cityIdx
     device_id := devNewStr d.devNewNum
     biometric_failure_count := choices3 0 1 2 60 25 15 d.bioSel
     transaction_frequency_5min := fr.1
     total_loans_vnd := uniformR 500000000 2000000000 d.loansSel
     num_transactions := d.numTx
     npl_flag := decide (d.nplU < 0.15)
     total_deposits_vnd := max 0 d.lnDeposits
     transaction_fees_vnd := 0
     is_fraud := true
     fraud_type := some FraudType.loan_fraud },
   { g with recent_activity := fr.2 })

/-- `_generate_fee_manipulation_transaction`: burst loop, then the tracker
call, then `small_amount = random.uniform(10_000, 100_000)` with fee
`small_amount * 0.05`. -/
def generateFeeManipulationTransaction (g : GenState) (d : Draws) :
    Transaction × GenState :=
  let account_id := acctAt d.acctIdx
  let burstInstants := d.burst.map (fun p => p.1 - (p.2 : ℚ))
  let act1 := Function.update g.recent_activity account_id
    (g.recent_activity account_id ++ burstInstants)
  let fr := updateAccountActivity act1 account_id d.now
  let small_amount := uniformR 10000 100000 d.amountSel
  ({ transaction_id := txnId g.transaction_counter
     account_id := account_id
     branch_id := d.branch
     transaction_amount_vnd := small_amount
     transaction_hour := d.currentHour
     transaction_timestamp := d.now
     location_city := cities.get d.cityIdx
     device_id := deviceAt d.deviceIdx
     biometric_failure_count := choices2 0 1 90 10 d.bioSel
     transaction_frequency_5min := fr.1
     total_loans_vnd := max 0 d.lnLoans
     num_transactions := d.numTx
     npl_flag := decide (d.nplU < 0.0198)
     total_deposits_vnd := max 0 d.lnDeposits
     transaction_fees_vnd := small_amount * 0.05
     is_fraud := true
     fraud_type := some FraudType.fee_manipulation },
   { g with recent_activity := fr.2 })

/-- The fraud gate and archetype dispatch at the top of
`generate_transaction`: `if random.random() < self.fraud_injection_rate`
followed by the weighted `random.choices` and the `if/elif` chain. -/
def sampleArchetype (g : GenState) (d : Draws) : Transaction × GenState :=
  if d.u < g.fraud_injection_rate then
    match chooseFraudType d.fraudSel with
    | FraudType.money_laundering => generateMoneyLaunderingTransaction g d
    | FraudType.account_takeover => generateAccountTakeoverTransaction g d
    | FraudType.loan_fraud => generateLoanFraudTransaction g d
    | FraudType.fee_manipulation => generateFeeManipulationTransaction g d
  else generateNormalTransaction g d

/-- The fee finalizer at the bottom of `generate_transaction`:
`if transaction.transaction_fees_vnd == 0: transaction.transaction_fees_vnd
= transaction.total_deposits_vnd * 0.001`. -/
def applyFeeFinalizer (t : Transaction) : Transaction :=
  if t.transaction_fees_vnd = 0 then
    { t with transaction_fees_vnd := t.total_deposits_vnd * 0.001 }
  else t

/-- `generate_transaction`: archetype sampling, fee finalizer, counter
increment. -/
def generateTransaction (g : GenState) (d : Draws) :
    Transaction × GenState :=
  (applyFeeFinalizer (sampleArchetype g d).1,
   { (sampleArchetype g d).2 with
       transaction_counter := (sampleArchetype g d).2.transaction_counter + 1 })

/-- The loop `for _ in range(count): generator.generate_transaction()`,
one `Draws` record per iteration. -/
def generateMany (g : GenState) : List Draws → List Transaction × GenState
  | [] => ([], g)
  | d :: ds =>
    let p := generateTransaction g d
    let rest := generateMany p.2 ds
    (p.1 :: rest.1, rest.2)

/-- `GET /transactions/{count}`: reject with HTTP 400 when
`count > 1000`, otherwise run the generation loop (`range(count)` is
empty for non-positive `count`). -/
def getTransactionsBatch (g : GenState) (count : ℤ) (ds : ℕ → Draws) :
    Except ℕ (List Transaction × GenState) :=
  if count > 1000 then Except.error 400
  else Except.ok (generateMany g ((List.range count.toNat).map ds))

/-- Folding the tracker over a list of call instants, keeping the count
returned by the most recent call (0 before any call). -/
def runTracker (m : ActivityMap) (a : String) (ts : List ℚ) :
    ℕ × ActivityMap :=
  ts.foldl (fun p t => updateAccountActivity p.2 a t) (0, m)

/-- Numeric value of a list of decimal digit characters read left to
right (the number denoted by the digits, leading zeros ignored). -/
def charsVal (cs : List Char) : ℕ :=
  cs.foldl (fun a c => 10 * a + (c.toNat - 48)) 0

/-- The counter of a `TXN_`-prefixed identifier read as a number. -/
def txnVal (s : String) : ℕ :=
  charsVal (s.data.drop 4)

/-- Default record used with `List.getD` in theorem statements. -/
def dtx : Transaction :=
  { transaction_id := txnId 0, account_id := "", branch_id := 0
    transaction_amount_vnd := 0, transaction_hour := 0
    transaction_timestamp := 0, location_city := "", device_id := ""
    biometric_failure_count := 0, transaction_frequency_5min := 0
    total_loans_vnd := 0, num_transactions := 0, npl_flag := false
    total_deposits_vnd := 0, transaction_fees_vnd := 0
    is_fraud := false, fraud_type := none }

/-- The freshly constructed generator: counter 1, no recorded activity,
default fraud injection rate 0.05. -/
def initState : GenState :=
  { transaction_counter := 1
    recent_activity := fun _ => []
    fraud_injection_rate := 0.05 }

/-- `initState` reconfigured with `fraud_injection_rate = 0`. -/
def rateZeroState : GenState :=
  { initState with fraud_injection_rate := 0 }

/-- `initState` reconfigured with `fraud_injection_rate = 1`. -/
def rateOneState : GenState :=
  { initState with fraud_injection_rate := 1 }

/-- A concrete draw record taking the normal branch (`u = 1` is never
below the fraud injection rate for rates at most 1). -/
def d0 : Draws :=
  { u := 1, fraudSel := 0, now := 0, currentHour := 12
    acctIdx := ⟨0, by omega⟩, branch := 1, amountSel := 0
    lnAmount := 1000000, hourIdx := ⟨0, by omega⟩
    cityIdx := ⟨0, by omega⟩, cityIdx10 := ⟨0, by omega⟩
    deviceIdx := ⟨0, by omega⟩, devNewNum := 90000, bioSel := 0
    bioRand := 3, lnLoans := 1000000, loansSel := 0, numTx := 100
    nplU := 1, lnDeposits := 1000000, burst := [] }

/-- A concrete draw record forcing the money-laundering branch with a
burst of 15 instants all jittered back exactly 300 seconds (`randint(1,
300)` returning 300 each time) and no clock advance. -/
def dML : Draws :=
  { d0 with u := 0, fraudSel := 0, burst := List.replicate 15 ((0 : ℚ), 300) }

/-- A concrete draw record forcing the money-laundering branch with a
burst of 15 instants jittered back 299 seconds each, all of which land
strictly inside the 5-minute window. -/
def dMLgood : Draws :=
  { d0 with u := 0, fraudSel := 0, burst := List.replicate 15 ((0 : ℚ), 299) }

/-- A concrete draw record forcing the account-takeover branch
(`fraudSel * 100 = 31` falls in the cumulative band `[30, 55)`) with
`randint(90000, 99999)` returning 90000. -/
def dATO : Draws :=
  { d0 with u := 0, fraudSel := 0.31 }

/-- A concrete draw record forcing the money-laundering branch with the
hour index selecting the sentinel value 24. -/
def dML24 : Draws :=
  { d0 with u := 0, fraudSel := 0, hourIdx := ⟨4, by omega⟩ }

/-- A concrete draw record forcing the fee-manipulation branch
(`fraudSel * 100 = 90` falls in the cumulative band `[80, 100)`). -/
def dFM : Draws :=
  { d0 with u := 0, fraudSel := 0.9 }

/-- A constant stream of draw records for the batch endpoint. -/
def dsConst : ℕ → Draws := fun _ => d0

/-! ### Decimal rendering lemmas -/

theorem charsVal_zeros (k : ℕ) :
    List.foldl (fun a c => 10 * a + (c.toNat - 48)) 0 (List.replicate k '0')
      = 0 := by
  induction k with
  | zero => rfl
  | succ n ih =>
    rw [List.replicate_succ, List.foldl_cons]
    exact ih

theorem charsVal_append_zeros (k : ℕ) (l : List Char) :
    charsVal (List.replicate k '0' ++ l) = charsVal l := by
  unfold charsVal
  rw [List.foldl_append, charsVal_zeros]

theorem digitChar_toNat {d : ℕ} (hd : d < 10) :
    (Nat.digitChar d).toNat - 48 = d := by
  interval_cases d <;> rfl

theorem foldr_digitChar (L : List ℕ) (h : ∀ d ∈ L, d < 10) :
    L.foldr (fun d acc => 10 * acc + ((Nat.digitChar d).toNat - 48)) 0
      = Nat.ofDigits 10 L := by
  induction L with
  | nil => rfl
  | cons d L ih =>
    rw [List.foldr_cons, ih (fun x hx => h x (List.mem_cons_of_mem _ hx)),
      Nat.ofDigits_cons, digitChar_toNat (h d (List.mem_cons_self ..))]
    ring

theorem charsVal_natChars (n : ℕ) : charsVal (natChars n) = n := by
  unfold charsVal natChars
  rw [List.map_reverse, List.foldl_reverse, List.foldr_map]
  have h := foldr_digitChar (Nat.digits 10 n)
    (fun d hd => Nat.digits_lt_base (by norm_num) hd)
  rw [h, Nat.ofDigits_digits]

theorem charsVal_padNum (w n : ℕ) : charsVal (padNum w n) = n := by
  unfold padNum
  rw [charsVal_append_zeros, charsVal_natChars]

theorem txnVal_txnId (n : ℕ) : txnVal (txnId n) = n := by
  have h : txnVal (txnId n) = charsVal (padNum 8 n) := rfl
  rw [h, charsVal_padNum]

theorem txnId_injective : Function.Injective txnId := by
  intro m n h
  have h2 := congrArg txnVal h
  rwa [txnVal_txnId, txnVal_txnId] at h2

theorem natChars_length_five {n : ℕ} (h1 : 10000 ≤ n) (h2 : n < 100000) :
    (natChars n).length = 5 := by
  unfold natChars
  rw [List.length_map, List.length_reverse]
  have hb : (1 : ℕ) < 10 := by norm_num
  have hlow : 4 < (Nat.digits 10 n).length := by
    by_contra hle
    push_neg at hle
    have hp := Nat.lt_base_pow_length_digits (b := 10) (m := n) hb
    have hle4 : n < 10 ^ 4 :=
      lt_of_lt_of_le hp (Nat.pow_le_pow_right (by norm_num) hle)
    have : (10 : ℕ) ^ 4 = 10000 := by norm_num
    omega
  have hup : (Nat.digits 10 n).length ≤ 5 := by
    by_contra hgt
    push_neg at hgt
    have hne : n ≠ 0 := by omega
    have h10 := Nat.base_pow_length_digits_le 10 n hb hne
    have hpow : (10 : ℕ) ^ 6 ≤ 10 ^ (Nat.digits 10 n).length :=
      Nat.pow_le_pow_right (by norm_num) hgt
    have : (10 : ℕ) ^ 6 = 1000000 := by norm_num
    omega
  omega

theorem devNewStr_length {j : ℕ} (h1 : 80000 ≤ j) (h2 : j ≤ 99999) :
    (devNewStr j).data.length = 13 := by
  unfold devNewStr
  have : (natChars j).length = 5 := natChars_length_five (by omega) (by omega)
  simp [this]

theorem devicePool_length {s : String} (hs : s ∈ devicePool) :
    s.data.length = 9 := by
  unfold devicePool at hs
  rw [List.mem_map] at hs
  obtain ⟨i, hi, rfl⟩ := hs
  rw [List.mem_range'] at hi
  obtain ⟨h1, h2⟩ := hi
  have hn : (natChars i).length = 5 := natChars_length_five (by omega) (by omega)
  unfold padNum
  simp [hn]

theorem devNewStr_not_in_pool {j : ℕ} (h1 : 80000 ≤ j) (h2 : j ≤ 99999) :
    devNewStr j ∉ devicePool := by
  intro hmem
  have h9 := devicePool_length hmem
  have h13 := devNewStr_length h1 h2
  omega

/-! ### Fee finalizer: only the fee field changes -/

theorem applyFeeFinalizer_id (t : Transaction) :
    (applyFeeFinalizer t).transaction_id = t.transaction_id := by
  unfold applyFeeFinalizer; split <;> rfl

theorem applyFeeFinalizer_is_fraud (t : Transaction) :
    (applyFeeFinalizer t).is_fraud = t.is_fraud := by
  unfold applyFeeFinalizer; split <;> rfl

theorem applyFeeFinalizer_fraud_type (t : Transaction) :
    (applyFeeFinalizer t).fraud_type = t.fraud_type := by
  unfold applyFeeFinalizer; split <;> rfl

theorem applyFeeFinalizer_amount (t : Transaction) :
    (applyFeeFinalizer t).transaction_amount_vnd = t.transaction_amount_vnd := by
  unfold applyFeeFinalizer; split <;> rfl

theorem applyFeeFinalizer_hour (t : Transaction) :
    (applyFeeFinalizer t).transaction_hour = t.transaction_hour := by
  unfold applyFeeFinalizer; split <;> rfl

theorem applyFeeFinalizer_freq (t : Transaction) :
    (applyFeeFinalizer t).transaction_frequency_5min
      = t.transaction_frequency_5min := by
  unfold applyFeeFinalizer; split <;> rfl

theorem applyFeeFinalizer_device (t : Transaction) :
    (applyFeeFinalizer t).device_id = t.device_id := by
  unfold applyFeeFinalizer; split <;> rfl

theorem applyFeeFinalizer_deposits (t : Transaction) :
    (applyFeeFinalizer t).total_deposits_vnd = t.total_deposits_vnd := by
  unfold applyFeeFinalizer; split <;> rfl

theorem applyFeeFinalizer_fees_of_zero (t : Transaction)
    (h : t.transaction_fees_vnd = 0) :
    (applyFeeFinalizer t).transaction_fees_vnd
      = t.total_deposits_vnd * 0.001 := by
  unfold applyFeeFinalizer; rw [if_pos h]

theorem applyFeeFinalizer_fees_of_nonzero (t : Transaction)
    (h : t.transaction_fees_vnd ≠ 0) :
    (applyFeeFinalizer t).transaction_fees_vnd = t.transaction_fees_vnd := by
  unfold applyFeeFinalizer; rw [if_neg h]

/-! ### Archetype sampler projections -/

theorem normal_is_fraud (g : GenState) (d : Draws) :
    (generateNormalTransaction g d).1.is_fraud = false := rfl

theorem ml_is_fraud (g : GenState) (d : Draws) :
    (generateMoneyLaunderingTransaction g d).1.is_fraud = true := rfl

theorem ato_is_fraud (g : GenState) (d : Draws) :
    (generateAccountTakeoverTransaction g d).1.is_fraud = true := rfl

theorem lf_is_fraud (g : GenState) (d : Draws) :
    (generateLoanFraudTransaction g d).1.is_fraud = true := rfl

theorem fm_is_fraud (g : GenState) (d : Draws) :
    (generateFeeManipulationTransaction g d).1.is_fraud = true := rfl

theorem normal_fraud_type (g : GenState) (d : Draws) :
    (generateNormalTransaction g d).1.fraud_type = none := rfl

theorem ml_fraud_type (g : GenState) (d : Draws) :
    (generateMoneyLaunderingTransaction g d).1.fraud_type
      = some FraudType.money_laundering := rfl

theorem ato_fraud_type (g : GenState) (d : Draws) :
    (generateAccountTakeoverTransaction g d).1.fraud_type
      = some FraudType.account_takeover := rfl

theorem lf_fraud_type (g : GenState) (d : Draws) :
    (generateLoanFraudTransaction g d).1.fraud_type
      = some FraudType.loan_fraud := rfl

theorem fm_fraud_type (g : GenState) (d : Draws) :
    (generateFeeManipulationTransaction g d).1.fraud_type
      = some FraudType.fee_manipulation := rfl

theorem normal_fees (g : GenState) (d : Draws) :
    (generateNormalTransaction g d).1.transaction_fees_vnd = 0 := rfl

theorem ml_fees (g : GenState) (d : Draws) :
    (generateMoneyLaunderingTransaction g d).1.transaction_fees_vnd = 0 := rfl

theorem ato_fees (g : GenState) (d : Draws) :
    (generateAccountTakeoverTransaction g d).1.transaction_fees_vnd = 0 := rfl

theorem lf_fees (g : GenState) (d : Draws) :
    (generateLoanFraudTransaction g d).1.transaction_fees_vnd = 0 := rfl

theorem fm_fees (g : GenState) (d : Draws) :
    (generateFeeManipulationTransaction g d).1.transaction_fees_vnd
      = uniformR 10000 100000 d.amountSel * 0.05 := rfl

theorem fm_amount (g : GenState) (d : Draws) :
    (generateFeeManipulationTransaction g d).1.transaction_amount_vnd
      = uniformR 10000 100000 d.amountSel := rfl

theorem ml_amount (g : GenState) (d : Draws) :
    (generateMoneyLaunderingTransaction g d).1.transaction_amount_vnd
      = uniformR 300000000 1000000000 d.amountSel := rfl

theorem ml_hour (g : GenState) (d : Draws) :
    (generateMoneyLaunderingTransaction g d).1.transaction_hour
      = ([1, 2, 3, 23, 24] : List ℕ).get d.hourIdx := rfl

theorem ato_device (g : GenState) (d : Draws) :
    (generateAccountTakeoverTransaction g d).1.device_id
      = devNewStr d.devNewNum := rfl

theorem lf_device (g : GenState) (d : Draws) :
    (generateLoanFraudTransaction g d).1.device_id
      = devNewStr d.devNewNum := rfl

theorem normal_deposits (g : GenState) (d : Draws) :
    (generateNormalTransaction g d).1.total_deposits_vnd
      = max 0 d.lnDeposits := rfl

theorem ml_deposits (g : GenState) (d : Draws) :
    (generateMoneyLaunderingTransaction g d).1.total_deposits_vnd
      = max 0 d.lnDeposits := rfl

theorem ato_deposits (g : GenState) (d : Draws) :
    (generateAccountTakeoverTransaction g d).1.total_deposits_vnd
      = max 0 d.lnDeposits := rfl

theorem lf_deposits (g : GenState) (d : Draws) :
    (generateLoanFraudTransaction g d).1.total_deposits_vnd
      = max 0 d.lnDeposits := rfl

theorem fm_deposits (g : GenState) (d : Draws) :
    (generateFeeManipulationTransaction g d).1.total_deposits_vnd
      = max 0 d.lnDeposits := rfl

/-! ### Dispatch structure of `generate_transaction` -/

theorem sampleArchetype_of_not_fraud (g : GenState) (d : Draws)
    (h : ¬ d.u < g.fraud_injection_rate) :
    sampleArchetype g d = generateNormalTransaction g d := by
  unfold sampleArchetype; rw [if_neg h]

theorem sampleArchetype_of_fraud (g : GenState) (d : Draws)
    (h : d.u < g.fraud_injection_rate) :
    sampleArchetype g d
      = match chooseFraudType d.fraudSel with
        | FraudType.money_laundering => generateMoneyLaunderingTransaction g d
        | FraudType.account_takeover => generateAccountTakeoverTransaction g d
        | FraudType.loan_fraud => generateLoanFraudTransaction g d
        | FraudType.fee_manipulation => generateFeeManipulationTransaction g d
      := by
  unfold sampleArchetype; rw [if_pos h]

theorem sampleArchetype_cases (g : GenState) (d : Draws) :
    (¬ d.u < g.fraud_injection_rate
      ∧ sampleArchetype g d = generateNormalTransaction g d)
    ∨ (d.u < g.fraud_injection_rate
      ∧ ((chooseFraudType d.fraudSel = FraudType.money_laundering
            ∧ sampleArchetype g d = generateMoneyLaunderingTransaction g d)
        ∨ (chooseFraudType d.fraudSel = FraudType.account_takeover
            ∧ sampleArchetype g d = generateAccountTakeoverTransaction g d)
        ∨ (chooseFraudType d.fraudSel = FraudType.loan_fraud
            ∧ sampleArchetype g d = generateLoanFraudTransaction g d)
        ∨ (chooseFraudType d.fraudSel = FraudType.fee_manipulation
            ∧ sampleArchetype g d = generateFeeManipulationTransaction g d))) := by
  by_cases h : d.u < g.fraud_injection_rate
  · right
    refine ⟨h, ?_⟩
    have hs := sampleArchetype_of_fraud g d h
    cases hc : chooseFraudType d.fraudSel
    · left; rw [hc] at hs; exact ⟨rfl, hs⟩
    · right; left; rw [hc] at hs; exact ⟨rfl, hs⟩
    · right; right; left; rw [hc] at hs; exact ⟨rfl, hs⟩
    · right; right; right; rw [hc] at hs; exact ⟨rfl, hs⟩
  · exact Or.inl ⟨h, sampleArchetype_of_not_fraud g d h⟩

theorem sampleArchetype_id (g : GenState) (d : Draws) :
    (sampleArchetype g d).1.transaction_id = txnId g.transaction_counter := by
  unfold sampleArchetype
  split
  · split <;> rfl
  · rfl

theorem sampleArchetype_counter (g : GenState) (d : Draws) :
    (sampleArchetype g d).2.transaction_counter = g.transaction_counter := by
  unfold sampleArchetype
  split
  · split <;> rfl
  · rfl

theorem sampleArchetype_rate (g : GenState) (d : Draws) :
    (sampleArchetype g d).2.fraud_injection_rate
      = g.fraud_injection_rate := by
  unfold sampleArchetype
  split
  · split <;> rfl
  · rfl

theorem generateTransaction_id (g : GenState) (d : Draws) :
    (generateTransaction g d).1.transaction_id
      = txnId g.transaction_counter := by
  unfold generateTransaction
  rw [applyFeeFinalizer_id, sampleArchetype_id]

theorem generateTransaction_counter (g : GenState) (d : Draws) :
    (generateTransaction g d).2.transaction_counter
      = g.transaction_counter + 1 := by
  unfold generateTransaction
  simp [sampleArchetype_counter]

theorem generateTransaction_rate (g : GenState) (d : Draws) :
    (generateTransaction g d).2.fraud_injection_rate
      = g.fraud_injection_rate := by
  unfold generateTransaction
  simp [sampleArchetype_rate]

theorem generateTransaction_is_fraud (g : GenState) (d : Draws) :
    (generateTransaction g d).1.is_fraud
      = decide (d.u < g.fraud_injection_rate) := by
  unfold generateTransaction
  rw [applyFeeFinalizer_is_fraud]
  rcases sampleArchetype_cases g d with ⟨h, hs⟩ | ⟨h, hc⟩
  · rw [hs, normal_is_fraud]
    simp [h]
  · rcases hc with ⟨_, hs⟩ | ⟨_, hs⟩ | ⟨_, hs⟩ | ⟨_, hs⟩ <;>
      rw [hs] <;>
      simp [h, ml_is_fraud, ato_is_fraud, lf_is_fraud, fm_is_fraud]

theorem generateTransaction_fraud_type_of_fraud (g : GenState) (d : Draws)
    (h : d.u < g.fraud_injection_rate) :
    (generateTransaction g d).1.fraud_type
      = some (chooseFraudType d.fraudSel) := by
  unfold generateTransaction
  rw [applyFeeFinalizer_fraud_type, sampleArchetype_of_fraud g d h]
  cases hc : chooseFraudType d.fraudSel <;> rfl

/-! ### Activity tracker lemmas -/

theorem updateAccountActivity_effect (m : ActivityMap) (a : String) (now : ℚ) :
    (updateAccountActivity m a now).2 a
        = (m a).filter (fun t => now - 300 < t) ++ [now]
    ∧ (updateAccountActivity m a now).1
        = ((m a).filter (fun t => now - 300 < t) ++ [now]).length := by
  constructor
  · show Function.update m a ((m a).filter (fun t => now - 300 < t) ++ [now]) a = _
    rw [Function.update_same]
  · rfl

theorem updateAccountActivity_prunes (m : ActivityMap) (a : String) (now : ℚ) :
    ∀ t ∈ m a, t < now - 300 → t ∉ (updateAccountActivity m a now).2 a := by
  intro t _ hlt hmem
  rw [(updateAccountActivity_effect m a now).1] at hmem
  rcases List.mem_append.mp hmem with h1 | h2
  · have hp := List.of_mem_filter h1
    simp only [decide_eq_true_eq] at hp
    linarith
  · have ht : t = now := by simpa using h2
    rw [ht] at hlt
    linarith

theorem runTracker_no_prune_aux (a : String) :
    ∀ (ts : List ℚ) (m : ActivityMap) (l₀ : List ℚ) (c : ℕ),
      m a = l₀ →
      (∀ x ∈ l₀ ++ ts, ∀ y ∈ ts, y - x < 300) →
      (List.foldl (fun p t => updateAccountActivity p.2 a t) (c, m) ts).2 a
          = l₀ ++ ts
      ∧ (List.foldl (fun p t => updateAccountActivity p.2 a t) (c, m) ts).1
          = if ts.isEmpty then c else l₀.length + ts.length := by
  intro ts
  induction ts with
  | nil =>
    intro m l₀ c hm _
    simpa using hm
  | cons t ts ih =>
    intro m l₀ c hm hw
    rw [List.foldl_cons]
    have hfil : (m a).filter (fun x => decide (t - 300 < x)) = l₀ := by
      rw [hm, List.filter_eq_self]
      intro x hx
      have hx' : x ∈ l₀ ++ t :: ts := List.mem_append_left _ hx
      have hd := hw x hx' t (List.mem_cons_self ..)
      simp only [decide_eq_true_eq]
      linarith
    have hstep : updateAccountActivity m a t
        = ((l₀ ++ [t]).length, Function.update m a (l₀ ++ [t])) := by
      unfold updateAccountActivity
      rw [hfil]
    rw [hstep]
    have hm' : Function.update m a (l₀ ++ [t]) a = l₀ ++ [t] :=
      Function.update_same ..
    have hw' : ∀ x ∈ (l₀ ++ [t]) ++ ts, ∀ y ∈ ts, y - x < 300 := by
      intro x hx y hy
      refine hw x ?_ y (List.mem_cons_of_mem _ hy)
      rw [List.append_assoc] at hx
      simpa using hx
    obtain ⟨H1, H2⟩ := ih (Function.update m a (l₀ ++ [t])) (l₀ ++ [t])
      ((l₀ ++ [t]).length) hm' hw'
    constructor
    · rw [H1, List.append_assoc]
      rfl
    · rw [H2]
      cases ts with
      | nil => simp
      | cons t' ts' =>
        simp only [List.isEmpty_cons, Bool.false_eq_true, if_false,
          List.length_append, List.length_cons, List.length_singleton,
          List.length_nil]
        omega

theorem tracker_expiry (m : ActivityMap) (a : String) (t₁ t₂ : ℚ)
    (hm : m a = []) (hgap : 300 < t₂ - t₁) :
    (updateAccountActivity (updateAccountActivity m a t₁).2 a t₂).1 = 1 := by
  have h1 : (updateAccountActivity m a t₁).2 a = [t₁] := by
    rw [(updateAccountActivity_effect m a t₁).1, hm]
    rfl
  rw [(updateAccountActivity_effect ..).2, h1]
  have hnp : ¬ (t₂ - 300 < t₁) := by linarith
  simp [hnp]

/-! ### Generation loop lemmas -/

theorem generateMany_length (g : GenState) (ds : List Draws) :
    (generateMany g ds).1.length = ds.length := by
  induction ds generalizing g with
  | nil => rfl
  | cons d ds ih =>
    show ((generateTransaction g d).1
        :: (generateMany (generateTransaction g d).2 ds).1).length = _
    rw [List.length_cons, ih, List.length_cons]

theorem generateMany_counter (g : GenState) (ds : List Draws) :
    (generateMany g ds).2.transaction_counter
      = g.transaction_counter + ds.length := by
  induction ds generalizing g with
  | nil => rfl
  | cons d ds ih =>
    show (generateMany (generateTransaction g d).2 ds).2.transaction_counter = _
    rw [ih, generateTransaction_counter, List.length_cons]
    omega

theorem generateMany_rate (g : GenState) (ds : List Draws) :
    (generateMany g ds).2.fraud_injection_rate = g.fraud_injection_rate := by
  induction ds generalizing g with
  | nil => rfl
  | cons d ds ih =>
    show (generateMany (generateTransaction g d).2 ds).2.fraud_injection_rate = _
    rw [ih, generateTransaction_rate]

theorem generateMany_getD_id (g : GenState) (ds : List Draws) :
    ∀ i, i < ds.length →
      (((generateMany g ds).1.getD i dtx)).transaction_id
        = txnId (g.transaction_counter + i) := by
  induction ds generalizing g with
  | nil =>
    intro i hi
    exact absurd hi (by simp)
  | cons d ds ih =>
    intro i hi
    cases i with
    | zero =>
      show (((generateTransaction g d).1
          :: (generateMany (generateTransaction g d).2 ds).1).getD 0 dtx).transaction_id = _
      rw [List.getD_cons_zero, generateTransaction_id, Nat.add_zero]
    | succ i =>
      show (((generateTransaction g d).1
          :: (generateMany (generateTransaction g d).2 ds).1).getD (i + 1) dtx).transaction_id = _
      rw [List.getD_cons_succ]
      have hi' : i < ds.length := by
        rw [List.length_cons] at hi
        omega
      rw [ih (generateTransaction g d).2 i hi', generateTransaction_counter]
      congr 1
      omega

theorem generateMany_all_normal (g : GenState) (ds : List Draws)
    (h0 : g.fraud_injection_rate = 0) (hu : ∀ d ∈ ds, 0 ≤ d.u) :
    ∀ r ∈ (generateMany g ds).1, r.is_fraud = false := by
  induction ds generalizing g with
  | nil =>
    intro r hr
    exact absurd hr (by simp [generateMany])
  | cons d ds ih =>
    intro r hr
    have hr' : r ∈ (generateTransaction g d).1
        :: (generateMany (generateTransaction g d).2 ds).1 := hr
    rcases List.mem_cons.mp hr' with rfl | hmem
    · rw [generateTransaction_is_fraud]
      have hnot : ¬ d.u < g.fraud_injection_rate := by
        rw [h0]
        exact not_lt.mpr (hu d (List.mem_cons_self ..))
      simp [hnot]
    · refine ih (generateTransaction g d).2 ?_ ?_ r hmem
      · rw [generateTransaction_rate, h0]
      · exact fun d' hd' => hu d' (List.mem_cons_of_mem _ hd')

theorem generateMany_all_fraud (g : GenState) (ds : List Draws)
    (h1 : g.fraud_injection_rate = 1) (hu : ∀ d ∈ ds, d.u < 1) :
    ∀ r ∈ (generateMany g ds).1, r.is_fraud = true := by
  induction ds generalizing g with
  | nil =>
    intro r hr
    exact absurd hr (by simp [generateMany])
  | cons d ds ih =>
    intro r hr
    have hr' : r ∈ (generateTransaction g d).1
        :: (generateMany (generateTransaction g d).2 ds).1 := hr
    rcases List.mem_cons.mp hr' with rfl | hmem
    · rw [generateTransaction_is_fraud]
      have hlt : d.u < g.fraud_injection_rate := by
        rw [h1]
        exact hu d (List.mem_cons_self ..)
      simp [hlt]
    · refine ih (generateTransaction g d).2 ?_ ?_ r hmem
      · rw [generateTransaction_rate, h1]
      · exact fun d' hd' => hu d' (List.mem_cons_of_mem _ hd')

/-! ### Claim theorems -/

/-- **C1**: every `_update_account_activity` call replaces the account's
window by the strict filter `now - 300 < t` of the old window plus the
appended `now` — in particular it prunes every instant older than
`now - 300` — and returns the resulting count; hence 20 calls for a
fresh account at instants all within a 5-minute span return 20 on the
final call, and a second call more than 300 seconds after a single first
call (no intervening activity) returns 1. -/
theorem claim_C1_tracker (a : String) :
    (∀ (m : ActivityMap) (now : ℚ),
        (updateAccountActivity m a now).2 a
            = (m a).filter (fun t => now - 300 < t) ++ [now]
      ∧ (updateAccountActivity m a now).1
            = ((m a).filter (fun t => now - 300 < t) ++ [now]).length
      ∧ ∀ t ∈ m a, t < now - 300 → t ∉ (updateAccountActivity m a now).2 a)
    ∧ (∀ (m : ActivityMap) (ts : List ℚ), m a = [] → ts.length = 20 →
        (∀ x ∈ ts, ∀ y ∈ ts, y - x < 300) →
        (runTracker m a ts).1 = 20)
    ∧ (∀ (m : ActivityMap) (t₁ t₂ : ℚ), m a = [] → 300 < t₂ - t₁ →
        (updateAccountActivity (updateAccountActivity m a t₁).2 a t₂).1 = 1) := by
  refine ⟨?_, ?_, ?_⟩
  · intro m now
    exact ⟨(updateAccountActivity_effect m a now).1,
      (updateAccountActivity_effect m a now).2,
      updateAccountActivity_prunes m a now⟩
  · intro m ts hm hlen hspan
    have hw : ∀ x ∈ ([] : List ℚ) ++ ts, ∀ y ∈ ts, y - x < 300 := by
      simpa using hspan
    have h2 := (runTracker_no_prune_aux a ts m [] 0 hm hw).2
    unfold runTracker
    rw [h2]
    cases ts with
    | nil => simp at hlen
    | cons t ts' =>
      simp only [List.isEmpty_cons, Bool.false_eq_true, if_false,
        List.length_nil]
      omega
  · intro m t₁ t₂ hm hgap
    exact tracker_expiry m a t₁ t₂ hm hgap

/-- Witness for C1 at concrete inputs: 20 calls at instant 0 for a fresh
account count 20; a call at 301 after one at 0 counts 1. -/
theorem claim_C1_tracker_witness :
    (runTracker (fun _ => []) "ACC_001000" (List.replicate 20 (0 : ℚ))).1 = 20
    ∧ (updateAccountActivity
        (updateAccountActivity (fun _ => []) "ACC_001000" 0).2
        "ACC_001000" 301).1 = 1 :=
  ⟨(claim_C1_tracker "ACC_001000").2.1 _ _ rfl (by simp)
      (fun x hx y hy => by
        rw [List.eq_of_mem_replicate hx, List.eq_of_mem_replicate hy]
        norm_num),
   (claim_C1_tracker "ACC_001000").2.2 _ 0 301 rfl (by norm_num)⟩

/-- **C2** (amended): generating a money-laundering record for a
previously-unseen account yields `transaction_frequency_5min ≥ 16`
provided every synthetic burst instant lands strictly inside the
5-minute window of the tracker call (offset strictly below 300 seconds
when the clock does not advance); a burst instant jittered exactly 300
seconds back sits on the window boundary and is pruned by the strict
filter, so without this proviso the count can be as low as 1. -/
theorem claim_C2_burst_frequency (g : GenState) (d : Draws)
    (hfresh : g.recent_activity (acctAt d.acctIdx) = [])
    (hlen : 15 ≤ d.burst.length)
    (hwin : ∀ p ∈ d.burst, d.now - 300 < p.1 - (p.2 : ℚ))
    (hu : d.u < g.fraud_injection_rate)
    (hml : chooseFraudType d.fraudSel = FraudType.money_laundering) :
    16 ≤ (generateTransaction g d).1.transaction_frequency_5min := by
  unfold generateTransaction
  rw [applyFeeFinalizer_freq, sampleArchetype_of_fraud g d hu, hml]
  show 16 ≤ (updateAccountActivity
      (Function.update g.recent_activity (acctAt d.acctIdx)
        (g.recent_activity (acctAt d.acctIdx)
          ++ d.burst.map (fun p => p.1 - (p.2 : ℚ))))
      (acctAt d.acctIdx) d.now).1
  rw [(updateAccountActivity_effect ..).2, Function.update_same, hfresh,
    List.nil_append]
  have hfil : (d.burst.map (fun p => p.1 - (p.2 : ℚ))).filter
      (fun t => d.now - 300 < t) = d.burst.map (fun p => p.1 - (p.2 : ℚ)) := by
    rw [List.filter_eq_self]
    intro x hx
    obtain ⟨p, hp, rfl⟩ := List.mem_map.mp hx
    exact decide_eq_true (hwin p hp)
  rw [hfil, List.length_append, List.length_map, List.length_singleton]
  omega

/-- Witness for C2 at concrete inputs: a fresh account, 15 burst
instants jittered back 299 seconds. -/
theorem claim_C2_burst_frequency_witness :
    16 ≤ (generateTransaction initState dMLgood).1.transaction_frequency_5min :=
  claim_C2_burst_frequency initState dMLgood rfl
    (by show 15 ≤ (List.replicate 15 ((0 : ℚ), (299 : ℕ))).length; simp)
    (fun p hp => by
      rw [List.eq_of_mem_replicate hp]
      show (0 : ℚ) - 300 < 0 - (299 : ℕ)
      norm_num)
    (by show (0 : ℚ) < 0.05; norm_num)
    (by show chooseFraudType 0 = FraudType.money_laundering
        unfold chooseFraudType
        rw [if_pos (by norm_num)])

/-- **C2** counterexample: forcing the money-laundering branch for a
previously-unseen account with 15 burst entries (smallest draw of
`randint(15, 25)`), each jittered back exactly 300 seconds (a legal
draw of `randint(1, 300)`) with no clock advance, every burst instant is
pruned by the strict window filter and the returned frequency is 1, not
at least 16 as the claim states. -/
theorem claim_C2_burst_frequency_counterexample :
    initState.recent_activity (acctAt dML.acctIdx) = []
    ∧ dML.burst.length = 15
    ∧ dML.burst = List.replicate 15 ((dML.now, 300) : ℚ × ℕ)
    ∧ (generateTransaction initState dML).1.fraud_type
        = some FraudType.money_laundering
    ∧ ¬ 16 ≤ (generateTransaction initState dML).1.transaction_frequency_5min := by
  have hu : dML.u < initState.fraud_injection_rate := by
    show (0 : ℚ) < 0.05
    norm_num
  have hml : chooseFraudType dML.fraudSel = FraudType.money_laundering := by
    show chooseFraudType 0 = FraudType.money_laundering
    unfold chooseFraudType
    rw [if_pos (by norm_num)]
  have hfreq : (generateTransaction initState dML).1.transaction_frequency_5min
      = 1 := by
    unfold generateTransaction
    rw [applyFeeFinalizer_freq, sampleArchetype_of_fraud initState dML hu, hml]
    show (updateAccountActivity
        (Function.update initState.recent_activity (acctAt dML.acctIdx)
          (initState.recent_activity (acctAt dML.acctIdx)
            ++ dML.burst.map (fun p => p.1 - (p.2 : ℚ))))
        (acctAt dML.acctIdx) dML.now).1 = 1
    rw [(updateAccountActivity_effect ..).2, Function.update_same]
    have hnil : (initState.recent_activity (acctAt dML.acctIdx)
        ++ dML.burst.map (fun p => p.1 - (p.2 : ℚ))).filter
          (fun t => dML.now - 300 < t) = [] := by
      rw [List.filter_eq_nil_iff]
      intro x hx
      rcases List.mem_append.mp hx with h1 | h2
      · rw [show initState.recent_activity (acctAt dML.acctIdx) = []
            from rfl] at h1
        simp at h1
      · obtain ⟨p, hp, rfl⟩ := List.mem_map.mp h2
        rw [List.eq_of_mem_replicate hp]
        simp only [decide_eq_true_eq]
        show ¬ ((0 : ℚ) - 300 < 0 - (300 : ℕ))
        norm_num
    rw [hnil]
    rfl
  refine ⟨rfl, ?_, rfl, ?_, ?_⟩
  · show (List.replicate 15 ((0 : ℚ), (300 : ℕ))).length = 15
    simp
  · rw [generateTransaction_fraud_type_of_fraud initState dML hu, hml]
  · rw [hfreq]
    norm_num

/-- **C3**: the fee finalizer keeps an archetype-set nonzero fee (only
fee manipulation sets one) and otherwise sets `transaction_fees_vnd =
total_deposits_vnd * 0.001`; hence every record whose archetype is not
fee manipulation has fee `total_deposits_vnd * 0.001`, and every record
has a nonnegative fee that is never left at the unset sentinel 0 (the
lognormal deposits draw is positive; the fee-manipulation amount is at
least 10000). -/
theorem claim_C3_fee_finalizer (g : GenState) (d : Draws)
    (hdep : 0 < d.lnDeposits) (hsel : 0 ≤ d.amountSel) :
    ((generateTransaction g d).1.fraud_type ≠ some FraudType.fee_manipulation →
      (generateTransaction g d).1.transaction_fees_vnd
        = (generateTransaction g d).1.total_deposits_vnd * 0.001)
    ∧ 0 ≤ (generateTransaction g d).1.transaction_fees_vnd
    ∧ (generateTransaction g d).1.transaction_fees_vnd ≠ 0 := by
  have h001 : (0 : ℚ) < 0.001 := by norm_num
  have hmax : max 0 d.lnDeposits = d.lnDeposits := max_eq_right hdep.le
  have key : ∀ t : Transaction, t.transaction_fees_vnd = 0 →
      t.total_deposits_vnd = max 0 d.lnDeposits →
      ((applyFeeFinalizer t).fraud_type ≠ some FraudType.fee_manipulation →
        (applyFeeFinalizer t).transaction_fees_vnd
          = (applyFeeFinalizer t).total_deposits_vnd * 0.001)
      ∧ 0 ≤ (applyFeeFinalizer t).transaction_fees_vnd
      ∧ (applyFeeFinalizer t).transaction_fees_vnd ≠ 0 := by
    intro t hf hdept
    have hfe := applyFeeFinalizer_fees_of_zero t hf
    have hde := applyFeeFinalizer_deposits t
    refine ⟨fun _ => by rw [hfe, hde], ?_, ?_⟩
    · rw [hfe, hdept, hmax]
      exact mul_nonneg hdep.le h001.le
    · rw [hfe, hdept, hmax]
      exact (mul_pos hdep h001).ne'
  have hgen : (generateTransaction g d).1
      = applyFeeFinalizer (sampleArchetype g d).1 := rfl
  rcases sampleArchetype_cases g d with ⟨h, hs⟩ | ⟨h, hc⟩
  · rw [hgen, hs]
    exact key _ (normal_fees g d) (normal_deposits g d)
  · rcases hc with ⟨_, hs⟩ | ⟨_, hs⟩ | ⟨_, hs⟩ | ⟨_, hs⟩
    · rw [hgen, hs]
      exact key _ (ml_fees g d) (ml_deposits g d)
    · rw [hgen, hs]
      exact key _ (ato_fees g d) (ato_deposits g d)
    · rw [hgen, hs]
      exact key _ (lf_fees g d) (lf_deposits g d)
    · rw [hgen, hs]
      have h90 : (0 : ℚ) ≤ 90000 * d.amountSel :=
        mul_nonneg (by norm_num) hsel
      have hamt : (0 : ℚ) < uniformR 10000 100000 d.amountSel := by
        unfold uniformR
        nlinarith
      have hfee := applyFeeFinalizer_fees_of_nonzero
        (generateFeeManipulationTransaction g d).1
        (by rw [fm_fees]; exact (mul_pos hamt (by norm_num)).ne')
      refine ⟨fun hft => absurd ?_ hft, ?_, ?_⟩
      · rw [applyFeeFinalizer_fraud_type, fm_fraud_type]
      · rw [hfee, fm_fees]
        exact mul_nonneg hamt.le (by norm_num)
      · rw [hfee, fm_fees]
        exact (mul_pos hamt (by norm_num)).ne'

/-- Witness for C3 at a concrete normal-branch input. -/
theorem claim_C3_fee_finalizer_witness :
    ((generateTransaction initState d0).1.fraud_type
        ≠ some FraudType.fee_manipulation →
      (generateTransaction initState d0).1.transaction_fees_vnd
        = (generateTransaction initState d0).1.total_deposits_vnd * 0.001)
    ∧ 0 ≤ (generateTransaction initState d0).1.transaction_fees_vnd
    ∧ (generateTransaction initState d0).1.transaction_fees_vnd ≠ 0 :=
  claim_C3_fee_finalizer initState d0
    (by show (0 : ℚ) < 1000000; norm_num) (le_refl 0)

/-- **C4**: every fee-manipulation record has
`transaction_fees_vnd = transaction_amount_vnd * 0.05` and
`transaction_amount_vnd` in the half-open interval [10000, 100000). -/
theorem claim_C4_fee_manipulation (g : GenState) (d : Draws)
    (h0 : 0 ≤ d.amountSel) (h1 : d.amountSel < 1)
    (hft : (generateTransaction g d).1.fraud_type
        = some FraudType.fee_manipulation) :
    (generateTransaction g d).1.transaction_fees_vnd
      = (generateTransaction g d).1.transaction_amount_vnd * 0.05
    ∧ 10000 ≤ (generateTransaction g d).1.transaction_amount_vnd
    ∧ (generateTransaction g d).1.transaction_amount_vnd < 100000 := by
  have hgen : (generateTransaction g d).1
      = applyFeeFinalizer (sampleArchetype g d).1 := rfl
  rcases sampleArchetype_cases g d with ⟨h, hs⟩ | ⟨h, hc⟩
  · rw [hgen, hs, applyFeeFinalizer_fraud_type, normal_fraud_type] at hft
    simp at hft
  · rcases hc with ⟨_, hs⟩ | ⟨_, hs⟩ | ⟨_, hs⟩ | ⟨_, hs⟩
    · rw [hgen, hs, applyFeeFinalizer_fraud_type, ml_fraud_type] at hft
      simp at hft
    · rw [hgen, hs, applyFeeFinalizer_fraud_type, ato_fraud_type] at hft
      simp at hft
    · rw [hgen, hs, applyFeeFinalizer_fraud_type, lf_fraud_type] at hft
      simp at hft
    · rw [hgen, hs]
      have h90 : (0 : ℚ) ≤ 90000 * d.amountSel :=
        mul_nonneg (by norm_num) h0
      have hlo : (10000 : ℚ) ≤ uniformR 10000 100000 d.amountSel := by
        unfold uniformR
        nlinarith
      have hhi : uniformR 10000 100000 d.amountSel < 100000 := by
        unfold uniformR
        nlinarith
      have hpos : (0 : ℚ) < uniformR 10000 100000 d.amountSel :=
        lt_of_lt_of_le (by norm_num) hlo
      have hfee := applyFeeFinalizer_fees_of_nonzero
        (generateFeeManipulationTransaction g d).1
        (by rw [fm_fees]; exact (mul_pos hpos (by norm_num)).ne')
      refine ⟨?_, ?_, ?_⟩
      · rw [hfee, fm_fees, applyFeeFinalizer_amount, fm_amount]
      · rw [applyFeeFinalizer_amount, fm_amount]
        exact hlo
      · rw [applyFeeFinalizer_amount, fm_amount]
        exact hhi

/-- Witness for C4 at a concrete fee-manipulation input. -/
theorem claim_C4_fee_manipulation_witness :
    (generateTransaction initState dFM).1.transaction_fees_vnd
      = (generateTransaction initState dFM).1.transaction_amount_vnd * 0.05
    ∧ 10000 ≤ (generateTransaction initState dFM).1.transaction_amount_vnd
    ∧ (generateTransaction initState dFM).1.transaction_amount_vnd < 100000 :=
  claim_C4_fee_manipulation initState dFM (le_refl 0)
    (by show (0 : ℚ) < 1; norm_num)
    (by rw [generateTransaction_fraud_type_of_fraud initState dFM
          (by show (0 : ℚ) < 0.05; norm_num)]
        show some (chooseFraudType 0.9) = some FraudType.fee_manipulation
        unfold chooseFraudType
        rw [if_neg (by norm_num), if_neg (by norm_num), if_neg (by norm_num)])

/-- **C5**: across consecutive `generate_transaction` calls the returned
`transaction_id` strings (`TXN_` followed by the zero-padded counter)
are pairwise distinct and strictly increasing when read as numbers, and
the counter is incremented exactly once per generated record. -/
theorem claim_C5_transaction_ids (g : GenState) (ds : List Draws)
    (i j : ℕ) (hij : i < j) (hj : j < ds.length) :
    txnVal (((generateMany g ds).1.getD i dtx).transaction_id)
      < txnVal (((generateMany g ds).1.getD j dtx).transaction_id)
    ∧ ((generateMany g ds).1.getD i dtx).transaction_id
      ≠ ((generateMany g ds).1.getD j dtx).transaction_id
    ∧ (generateMany g ds).2.transaction_counter
      = g.transaction_counter + ds.length := by
  have hi : i < ds.length := lt_trans hij hj
  rw [generateMany_getD_id g ds i hi, generateMany_getD_id g ds j hj,
    txnVal_txnId, txnVal_txnId]
  refine ⟨by omega, ?_, generateMany_counter g ds⟩
  intro h
  have hinj := txnId_injective h
  omega

/-- Witness for C5 on a concrete two-call run. -/
theorem claim_C5_transaction_ids_witness :
    txnVal (((generateMany initState [d0, d0]).1.getD 0 dtx).transaction_id)
      < txnVal (((generateMany initState [d0, d0]).1.getD 1 dtx).transaction_id)
    ∧ ((generateMany initState [d0, d0]).1.getD 0 dtx).transaction_id
      ≠ ((generateMany initState [d0, d0]).1.getD 1 dtx).transaction_id
    ∧ (generateMany initState [d0, d0]).2.transaction_counter
      = initState.transaction_counter + [d0, d0].length :=
  claim_C5_transaction_ids initState [d0, d0] 0 1 (by norm_num) (by decide)

/-- **C6**: with `fraud_injection_rate = 0` every generated record is
normal; with rate 1 every record is fraudulent; a fraud archetype is
selected exactly when the uniform draw satisfies `u < rate`; and the
weighted archetype choice splits the selector space in proportion
30 : 25 : 25 : 20 (cumulative bands at 30, 55 and 80 out of 100). -/
theorem claim_C6_fraud_gate (g : GenState) (ds : List Draws) (d : Draws)
    (v : ℚ) :
    (g.fraud_injection_rate = 0 → (∀ d' ∈ ds, 0 ≤ d'.u) →
      ∀ r ∈ (generateMany g ds).1, r.is_fraud = false)
    ∧ (g.fraud_injection_rate = 1 → (∀ d' ∈ ds, d'.u < 1) →
      ∀ r ∈ (generateMany g ds).1, r.is_fraud = true)
    ∧ ((generateTransaction g d).1.is_fraud = true
        ↔ d.u < g.fraud_injection_rate)
    ∧ (d.u < g.fraud_injection_rate →
        (generateTransaction g d).1.fraud_type
          = some (chooseFraudType d.fraudSel))
    ∧ ((chooseFraudType v = FraudType.money_laundering ↔ v * 100 < 30)
      ∧ (chooseFraudType v = FraudType.account_takeover
          ↔ 30 ≤ v * 100 ∧ v * 100 < 55)
      ∧ (chooseFraudType v = FraudType.loan_fraud
          ↔ 55 ≤ v * 100 ∧ v * 100 < 80)
      ∧ (chooseFraudType v = FraudType.fee_manipulation ↔ 80 ≤ v * 100)) := by
  refine ⟨generateMany_all_normal g ds, generateMany_all_fraud g ds, ?_,
    generateTransaction_fraud_type_of_fraud g d, ?_⟩
  · rw [generateTransaction_is_fraud]
    exact decide_eq_true_iff
  · unfold chooseFraudType
    by_cases h1 : v * 100 < 30
    · rw [if_pos h1]
      exact ⟨⟨fun _ => h1, fun _ => rfl⟩,
        ⟨fun hx => FraudType.noConfusion hx,
          fun hx => absurd h1 (not_lt.mpr hx.1)⟩,
        ⟨fun hx => FraudType.noConfusion hx,
          fun hx => absurd h1 (not_lt.mpr (le_trans (by norm_num) hx.1))⟩,
        ⟨fun hx => FraudType.noConfusion hx,
          fun hx => absurd h1 (not_lt.mpr (le_trans (by norm_num) hx))⟩⟩
    · rw [if_neg h1]
      by_cases h2 : v * 100 < 55
      · rw [if_pos h2]
        exact ⟨⟨fun hx => FraudType.noConfusion hx, fun hx => absurd hx h1⟩,
          ⟨fun _ => ⟨not_lt.mp h1, h2⟩, fun _ => rfl⟩,
          ⟨fun hx => FraudType.noConfusion hx,
            fun hx => absurd h2 (not_lt.mpr hx.1)⟩,
          ⟨fun hx => FraudType.noConfusion hx,
            fun hx => absurd h2 (not_lt.mpr (le_trans (by norm_num) hx))⟩⟩
      · rw [if_neg h2]
        by_cases h3 : v * 100 < 80
        · rw [if_pos h3]
          exact ⟨⟨fun hx => FraudType.noConfusion hx, fun hx => absurd hx h1⟩,
            ⟨fun hx => FraudType.noConfusion hx, fun hx => absurd hx.2 h2⟩,
            ⟨fun _ => ⟨not_lt.mp h2, h3⟩, fun _ => rfl⟩,
            ⟨fun hx => FraudType.noConfusion hx,
              fun hx => absurd h3 (not_lt.mpr hx)⟩⟩
        · rw [if_neg h3]
          exact ⟨⟨fun hx => FraudType.noConfusion hx, fun hx => absurd hx h1⟩,
            ⟨fun hx => FraudType.noConfusion hx, fun hx => absurd hx.2 h2⟩,
            ⟨fun hx => FraudType.noConfusion hx, fun hx => absurd hx.2 h3⟩,
            ⟨fun _ => not_lt.mp h3, fun _ => rfl⟩⟩

/-- Witness for C6: a rate-0 run produces a normal record, a rate-1 run
produces a fraudulent record. -/
theorem claim_C6_fraud_gate_witness :
    ((generateMany rateZeroState [d0]).1.getD 0 dtx).is_fraud = false
    ∧ ((generateMany rateOneState [dML]).1.getD 0 dtx).is_fraud = true :=
  ⟨(claim_C6_fraud_gate rateZeroState [d0] d0 0).1 rfl
      (fun d' hd' => by
        rw [List.mem_singleton.mp hd']
        show (0 : ℚ) ≤ 1
        norm_num)
      _ (List.mem_cons_self ..),
    (claim_C6_fraud_gate rateOneState [dML] d0 0).2.1 rfl
      (fun d' hd' => by
        rw [List.mem_singleton.mp hd']
        show (0 : ℚ) < 1
        norm_num)
      _ (List.mem_cons_self ..)⟩

/-- **C7**: every money-laundering record has
`transaction_amount_vnd` in [3e8, 1e9] and `transaction_hour` in
{1, 2, 3, 23, 24}; hour index 4 yields the out-of-range sentinel 24,
emitted as-is rather than clamped. -/
theorem claim_C7_money_laundering (g : GenState) (d : Draws)
    (h0 : 0 ≤ d.amountSel) (h1 : d.amountSel < 1) :
    ((generateTransaction g d).1.fraud_type
        = some FraudType.money_laundering →
      (300000000 ≤ (generateTransaction g d).1.transaction_amount_vnd
        ∧ (generateTransaction g d).1.transaction_amount_vnd ≤ 1000000000)
      ∧ (generateTransaction g d).1.transaction_hour
          ∈ ([1, 2, 3, 23, 24] : List ℕ))
    ∧ (d.u < g.fraud_injection_rate →
        chooseFraudType d.fraudSel = FraudType.money_laundering →
        d.hourIdx = (⟨4, by omega⟩ : Fin 5) →
        (generateTransaction g d).1.transaction_hour = 24) := by
  have hgen : (generateTransaction g d).1
      = applyFeeFinalizer (sampleArchetype g d).1 := rfl
  constructor
  · intro hft
    rcases sampleArchetype_cases g d with ⟨h, hs⟩ | ⟨h, hc⟩
    · rw [hgen, hs, applyFeeFinalizer_fraud_type, normal_fraud_type] at hft
      simp at hft
    · rcases hc with ⟨_, hs⟩ | ⟨_, hs⟩ | ⟨_, hs⟩ | ⟨_, hs⟩
      · rw [hgen, hs]
        have h7 : (0 : ℚ) ≤ 700000000 * d.amountSel :=
          mul_nonneg (by norm_num) h0
        refine ⟨⟨?_, ?_⟩, ?_⟩
        · rw [applyFeeFinalizer_amount, ml_amount]
          unfold uniformR
          nlinarith
        · rw [applyFeeFinalizer_amount, ml_amount]
          unfold uniformR
          nlinarith
        · rw [applyFeeFinalizer_hour, ml_hour]
          exact List.get_mem ([1, 2, 3, 23, 24] : List ℕ) d.hourIdx.1 d.hourIdx.2
      · rw [hgen, hs, applyFeeFinalizer_fraud_type, ato_fraud_type] at hft
        simp at hft
      · rw [hgen, hs, applyFeeFinalizer_fraud_type, lf_fraud_type] at hft
        simp at hft
      · rw [hgen, hs, applyFeeFinalizer_fraud_type, fm_fraud_type] at hft
        simp at hft
  · intro hu hml hidx
    unfold generateTransaction
    rw [applyFeeFinalizer_hour, sampleArchetype_of_fraud g d hu, hml]
    show ([1, 2, 3, 23, 24] : List ℕ).get d.hourIdx = 24
    rw [hidx]
    rfl

/-- Witness for C7 on concrete money-laundering draws, one of which
selects the sentinel hour 24. -/
theorem claim_C7_money_laundering_witness :
    ((300000000 ≤ (generateTransaction initState dML).1.transaction_amount_vnd
      ∧ (generateTransaction initState dML).1.transaction_amount_vnd
          ≤ 1000000000)
      ∧ (generateTransaction initState dML).1.transaction_hour
          ∈ ([1, 2, 3, 23, 24] : List ℕ))
    ∧ (generateTransaction initState dML24).1.transaction_hour = 24 :=
  ⟨(claim_C7_money_laundering initState dML (le_refl 0)
      (by show (0 : ℚ) < 1; norm_num)).1
      (by rw [generateTransaction_fraud_type_of_fraud initState dML
            (by show (0 : ℚ) < 0.05; norm_num)]
          show some (chooseFraudType 0) = some FraudType.money_laundering
          unfold chooseFraudType
          rw [if_pos (by norm_num)]),
    (claim_C7_money_laundering initState dML24 (le_refl 0)
      (by show (0 : ℚ) < 1; norm_num)).2
      (by show (0 : ℚ) < 0.05; norm_num)
      (by show chooseFraudType 0 = FraudType.money_laundering
          unfold chooseFraudType
          rw [if_pos (by norm_num)])
      rfl⟩

/-- **C8** (amended): every account-takeover or loan-fraud record
carries a freshly synthesized `DEV_NEW_` device id that lies outside the
fixed device pool (hence differs from the device id of every record
drawn from the pool); it is not guaranteed distinct from the
synthesized device of an earlier takeover/loan-fraud record, since the
numeric suffix is an independent bounded `randint` draw — see the
counterexample. -/
theorem claim_C8_new_device (g : GenState) (d : Draws)
    (hlo : 80000 ≤ d.devNewNum) (hhi : d.devNewNum ≤ 99999)
    (hft : (generateTransaction g d).1.fraud_type
        = some FraudType.account_takeover
      ∨ (generateTransaction g d).1.fraud_type
        = some FraudType.loan_fraud) :
    (generateTransaction g d).1.device_id = devNewStr d.devNewNum
    ∧ (generateTransaction g d).1.device_id ∉ devicePool := by
  have hgen : (generateTransaction g d).1
      = applyFeeFinalizer (sampleArchetype g d).1 := rfl
  have hdev : (generateTransaction g d).1.device_id
      = devNewStr d.devNewNum := by
    rcases sampleArchetype_cases g d with ⟨h, hs⟩ | ⟨h, hc⟩
    · rw [hgen, hs, applyFeeFinalizer_fraud_type, normal_fraud_type] at hft
      rcases hft with hft | hft <;> simp at hft
    · rcases hc with ⟨_, hs⟩ | ⟨_, hs⟩ | ⟨_, hs⟩ | ⟨_, hs⟩
      · rw [hgen, hs, applyFeeFinalizer_fraud_type, ml_fraud_type] at hft
        rcases hft with hft | hft <;> simp at hft
      · rw [hgen, hs, applyFeeFinalizer_device, ato_device]
      · rw [hgen, hs, applyFeeFinalizer_device, lf_device]
      · rw [hgen, hs, applyFeeFinalizer_fraud_type, fm_fraud_type] at hft
        rcases hft with hft | hft <;> simp at hft
  refine ⟨hdev, ?_⟩
  rw [hdev]
  exact devNewStr_not_in_pool hlo hhi

/-- Witness for C8 on a concrete account-takeover draw. -/
theorem claim_C8_new_device_witness :
    (generateTransaction initState dATO).1.device_id = devNewStr 90000
    ∧ (generateTransaction initState dATO).1.device_id ∉ devicePool :=
  claim_C8_new_device initState dATO
    (by show (80000 : ℕ) ≤ 90000; norm_num)
    (by show (90000 : ℕ) ≤ 99999; norm_num)
    (Or.inl (by
      rw [generateTransaction_fraud_type_of_fraud initState dATO
        (by show (0 : ℚ) < 0.05; norm_num)]
      show some (chooseFraudType 0.31) = some FraudType.account_takeover
      unfold chooseFraudType
      rw [if_neg (by norm_num), if_pos (by norm_num)]))

/-- **C8** counterexample: two consecutive account-takeover records
whose `randint(90000, 99999)` draws coincide carry the same `DEV_NEW_`
device id, so the synthesized device of the second record HAS been seen
on an earlier record of the same process, contradicting the claim. -/
theorem claim_C8_new_device_counterexample :
    ((generateMany initState [dATO, dATO]).1.getD 0 dtx).fraud_type
        = some FraudType.account_takeover
    ∧ ((generateMany initState [dATO, dATO]).1.getD 1 dtx).fraud_type
        = some FraudType.account_takeover
    ∧ ((generateMany initState [dATO, dATO]).1.getD 1 dtx).device_id
        = ((generateMany initState [dATO, dATO]).1.getD 0 dtx).device_id := by
  have hu0 : dATO.u < initState.fraud_injection_rate := by
    show (0 : ℚ) < 0.05
    norm_num
  have hATO : chooseFraudType dATO.fraudSel
      = FraudType.account_takeover := by
    show chooseFraudType 0.31 = FraudType.account_takeover
    unfold chooseFraudType
    rw [if_neg (by norm_num), if_pos (by norm_num)]
  have hu1 : dATO.u
      < (generateTransaction initState dATO).2.fraud_injection_rate := by
    rw [generateTransaction_rate]
    exact hu0
  have e0 : ((generateMany initState [dATO, dATO]).1.getD 0 dtx)
      = (generateTransaction initState dATO).1 := rfl
  have e1 : ((generateMany initState [dATO, dATO]).1.getD 1 dtx)
      = (generateTransaction (generateTransaction initState dATO).2 dATO).1 :=
    rfl
  have hd0 : (generateTransaction initState dATO).1.device_id
      = devNewStr dATO.devNewNum := by
    show (applyFeeFinalizer (sampleArchetype initState dATO).1).device_id = _
    rw [applyFeeFinalizer_device, sampleArchetype_of_fraud initState dATO hu0,
      hATO]
    show (generateAccountTakeoverTransaction initState dATO).1.device_id = _
    rfl
  have hd1 : (generateTransaction
        (generateTransaction initState dATO).2 dATO).1.device_id
      = devNewStr dATO.devNewNum := by
    show (applyFeeFinalizer
        (sampleArchetype (generateTransaction initState dATO).2 dATO).1).device_id = _
    rw [applyFeeFinalizer_device,
      sampleArchetype_of_fraud (generateTransaction initState dATO).2 dATO hu1,
      hATO]
    show (generateAccountTakeoverTransaction
        (generateTransaction initState dATO).2 dATO).1.device_id = _
    rfl
  refine ⟨?_, ?_, ?_⟩
  · rw [e0, generateTransaction_fraud_type_of_fraud initState dATO hu0, hATO]
  · rw [e1, generateTransaction_fraud_type_of_fraud
      (generateTransaction initState dATO).2 dATO hu1, hATO]
  · rw [e0, e1, hd0, hd1]

/-- **C9** (amended): a batch request for more than 1000 transactions is
rejected with HTTP 400 before any record is generated; a request for
`n` with 0 ≤ n ≤ 1000 succeeds and returns exactly `n` records.  For
negative `n` (also ≤ 1000) the endpoint is not rejected and returns 0
records, so the claim's "any n ≤ 1000 returns exactly n records" fails
at n = -1 — see the counterexample. -/
theorem claim_C9_batch_limit (g : GenState) (count : ℤ) (ds : ℕ → Draws) :
    (1000 < count → getTransactionsBatch g count ds = Except.error 400)
    ∧ (count ≤ 1000 → getTransactionsBatch g count ds
        = Except.ok (generateMany g ((List.range count.toNat).map ds)))
    ∧ (0 ≤ count → count ≤ 1000 →
        ((generateMany g ((List.range count.toNat).map ds)).1.length : ℤ)
          = count) := by
  refine ⟨?_, ?_, ?_⟩
  · intro h
    unfold getTransactionsBatch
    rw [if_pos h]
  · intro h
    unfold getTransactionsBatch
    rw [if_neg (by omega)]
  · intro h0 h1
    rw [generateMany_length, List.length_map, List.length_range]
    omega

/-- Witness for C9: a request for 1001 records is rejected, a request
for 2 records returns exactly 2. -/
theorem claim_C9_batch_limit_witness :
    getTransactionsBatch initState 1001 dsConst = Except.error 400
    ∧ ((generateMany initState
        ((List.range (2 : ℤ).toNat).map dsConst)).1.length : ℤ) = 2 :=
  ⟨(claim_C9_batch_limit initState 1001 dsConst).1 (by norm_num),
   (claim_C9_batch_limit initState 2 dsConst).2.2 (by norm_num) (by norm_num)⟩

/-- **C9** counterexample: `n = -1` satisfies `n ≤ 1000`, yet the
endpoint succeeds with an empty list — 0 records, not "exactly n". -/
theorem claim_C9_batch_limit_counterexample :
    (-1 : ℤ) ≤ 1000
    ∧ getTransactionsBatch initState (-1) dsConst
        = Except.ok ([], initState)
    ∧ ((([] : List Transaction).length : ℤ) ≠ (-1 : ℤ)) := by
  refine ⟨by norm_num, ?_, by norm_num⟩
  rfl

/-- **C10**: a batch request with `count ≤ 0` raises no error: it
succeeds with an empty transaction list (so the response count is 0),
generates no records, and leaves the generator state — counter and
activity map — unchanged. -/
theorem claim_C10_batch_nonpositive (g : GenState) (count : ℤ)
    (ds : ℕ → Draws) (h : count ≤ 0) :
    getTransactionsBatch g count ds = Except.ok ([], g) := by
  unfold getTransactionsBatch
  rw [if_neg (by omega)]
  have ht : count.toNat = 0 := by omega
  rw [ht]
  rfl

/-- Witness for C10 at `count = -3`. -/
theorem claim_C10_batch_nonpositive_witness :
    getTransactionsBatch initState (-3) dsConst
      = Except.ok ([], initState) :=
  claim_C10_batch_nonpositive initState (-3) dsConst (by norm_num)

end Banking
